import Mathlib

/-!
Shallow embedding of the Jobly browser scripts
(`src/app/static/auth.js` and `src/app/static/script.js`).

JavaScript values observed by the scripts are modelled by `JSValue`;
browser-visible state (the `window.currentUser` global, `window.location.href`,
the console, issued network requests, `localStorage`) is threaded explicitly.
The outcome of each `fetch` call is a parameter, since the scripts only
observe the response object (or the rejection).
-/

namespace Jobly

/-- A JavaScript value, as far as the scripts observe one: `undefined`, `null`,
booleans, numbers, strings and plain objects (field lists). -/
inductive JSValue where
  | undefined
  | null
  | bool (b : Bool)
  | num (n : Int)
  | str (s : String)
  | obj (fields : List (String × JSValue))

/-- JavaScript truthiness: `undefined`, `null`, `false`, `0` and `""` are falsy,
everything else (in particular every object) is truthy. -/
def JSValue.truthy : JSValue → Bool
  | .undefined => false
  | .null => false
  | .bool b => b
  | .num n => decide (n ≠ 0)
  | .str s => decide (s ≠ "")
  | .obj _ => true

/-- Whether a value is nullish (`null` or `undefined`), the class tested by the
JavaScript operators `?.` and `??`. -/
def JSValue.isNullish : JSValue → Bool
  | .null => true
  | .undefined => true
  | _ => false

/-- Property access `v.k` as the scripts use it: field lookup on an object,
`undefined` on a missing field or a primitive.  (In JavaScript, access on
`null`/`undefined` throws, but both accesses in `auth.js` are guarded — by a
truthiness test and by optional chaining respectively — so that case is
unreachable there.) -/
def jsGetField : JSValue → String → JSValue
  | .obj fields, k => (fields.lookup k).getD .undefined
  | _, _ => .undefined

/-- Optional chaining `v?.k`: `undefined` when `v` is nullish, else `v.k`. -/
def optChain (v : JSValue) (k : String) : JSValue :=
  if v.isNullish then .undefined else jsGetField v k

/-- Nullish coalescing `v ?? null`: `null` when `v` is nullish, else `v`. -/
def orNull (v : JSValue) : JSValue :=
  if v.isNullish then .null else v

/-- The browser state observed and mutated by `auth.js`'s guard:
`window.currentUser`, `window.location.href`, the number of `console.error`
calls, and the network requests issued so far. -/
structure AuthState where
  currentUser : JSValue
  locationHref : String
  consoleErrors : Nat
  requests : List String

/-- Outcome of a `fetch` call as the script observes it: either the promise
rejects (network error), or a response arrives with a status code and the
result of `res.json()` (`none` when the body fails to parse). -/
inductive FetchOutcome where
  | networkError
  | response (status : Nat) (jsonResult : Option JSValue)

/-- `Response.ok` per the fetch standard: status in the range 200–299. -/
def resOk (status : Nat) : Bool :=
  decide (200 ≤ status) && decide (status < 300)

/-- `checkAuth` from `auth.js`: fetch `/api/me`; on 401 redirect to `/login`;
on any other non-ok status throw (caught below); on success parse the JSON
body, store `data.user` into `window.currentUser` when `data && data.user` is
truthy, and return `data?.user ?? null`.  Every thrown error (network error,
non-ok non-401 status, JSON parse failure) is caught: it is logged with
`console.error` and the browser is redirected to `/login`. -/
def checkAuth (f : FetchOutcome) (s : AuthState) : AuthState × JSValue :=
  let s := { s with requests := s.requests ++ ["GET /api/me"] }
  match f with
  | .networkError =>
      ({ s with consoleErrors := s.consoleErrors + 1, locationHref := "/login" },
       .null)
  | .response status jsonResult =>
      if resOk status then
        match jsonResult with
        | none =>
            ({ s with consoleErrors := s.consoleErrors + 1,
                      locationHref := "/login" }, .null)
        | some data =>
            let s :=
              if data.truthy && (jsGetField data "user").truthy then
                { s with currentUser := jsGetField data "user" }
              else s
            (s, orNull (optChain data "user"))
      else if status = 401 then
        ({ s with locationHref := "/login" }, .null)
      else
        ({ s with consoleErrors := s.consoleErrors + 1,
                  locationHref := "/login" }, .null)

/-- The `DOMContentLoaded` handler of `auth.js`, restricted to its observable
effect on `AuthState`: attaching the logout-button listener changes nothing
here, and `checkAuth` runs iff `window.SKIP_AUTH_GUARD` is not truthy. -/
def domReady (skipAuthGuard : JSValue) (f : FetchOutcome) (s : AuthState) :
    AuthState :=
  if !skipAuthGuard.truthy then (checkAuth f s).1 else s

/-- The browser state observed and mutated by `doLogout`: `localStorage` as an
association list and `window.location.href`. -/
structure LogoutState where
  storage : List (String × String)
  locationHref : String

/-- `localStorage.removeItem`: drop every entry under the given key. -/
def removeItem (k : String) (st : List (String × String)) :
    List (String × String) :=
  st.filter (fun kv => kv.1 ≠ k)

/-- The four keys removed by `doLogout`, in source order. -/
def logoutKeys : List String :=
  ["jobly_user", "authEmail", "employerRegistration", "ultimaVacanteId"]

/-- `doLogout` from `auth.js`: POST `/api/logout` (its outcome — `fetchThrows`
— is ignored), then remove the four `logoutKeys` inside one try/catch (if the
storage access throws at call `i`, modelled by `storageThrowAt = some i`, the
later calls are skipped), then unconditionally redirect to `/login`. -/
def doLogout (fetchThrows : Bool) (storageThrowAt : Option Nat)
    (s : LogoutState) : LogoutState :=
  let done := match storageThrowAt with
    | none => logoutKeys.length
    | some i => min i logoutKeys.length
  let storage :=
    (logoutKeys.take done).foldl (fun st k => removeItem k st) s.storage
  { storage := storage, locationHref := "/login" }

/-- The `fill`/`stroke` attributes of the SVG path inside a bookmark button;
`getAttribute` returns `none` (JS `null`) for an absent attribute. -/
structure PathAttrs where
  fill : Option String
  stroke : Option String
deriving DecidableEq

/-- The test `svg.getAttribute('fill') !== 'none'` from the bookmark click
handler in `script.js`. -/
def isFilled (p : PathAttrs) : Bool :=
  decide (p.fill ≠ some "none")

/-- The attribute flip performed by the bookmark click handler in
`script.js`. -/
def bookmarkToggle (p : PathAttrs) : PathAttrs :=
  if isFilled p then { fill := some "none", stroke := some "#141514" }
  else { fill := some "#141514", stroke := some "none" }

/-- A dispatched DOM click event, as the handlers observe it. -/
structure ClickEvent where
  propagationStopped : Bool

/-- `e.stopPropagation()`. -/
def stopPropagation (e : ClickEvent) : ClickEvent :=
  { e with propagationStopped := true }

/-- The bookmark-button click handler from `script.js`: stop propagation,
then flip the path's fill/stroke attributes. -/
def bookmarkClickHandler (e : ClickEvent) (p : PathAttrs) :
    ClickEvent × PathAttrs :=
  (stopPropagation e, bookmarkToggle p)

/-- A click on a bookmark control inside a job card, with DOM bubbling: the
bookmark handler runs first; the enclosing job-card click handler (which logs
"Job card clicked") fires only if propagation was not stopped.  Returns the
path attributes and the console log after the interaction. -/
def clickOnBookmark (p : PathAttrs) (log : List String) :
    PathAttrs × List String :=
  let ep := bookmarkClickHandler { propagationStopped := false } p
  (ep.2, if ep.1.propagationStopped then log else log ++ ["Job card clicked"])

/-- The two attribute states reachable by the bookmark toggle: outline. -/
def bookmarkOutline : PathAttrs :=
  { fill := some "none", stroke := some "#141514" }

/-- The two attribute states reachable by the bookmark toggle: filled. -/
def bookmarkFilled : PathAttrs :=
  { fill := some "#141514", stroke := some "none" }

/-- A sample pre-check browser state used by the concrete witnesses. -/
def sampleAuthState : AuthState :=
  { currentUser := .undefined, locationHref := "/empresa", consoleErrors := 0,
    requests := [] }

/-- Helper: `List.lookup` on a cons cell, with propositional equality. -/
theorem lookup_cons_pair (k a b : String) (tl : List (String × String)) :
    ((a, b) :: tl).lookup k = if k = a then some b else tl.lookup k := by
  by_cases h : k = a
  · subst h; simp [List.lookup]
  · have hb : (k == a) = false := beq_eq_false_iff_ne.mpr h
    simp [List.lookup, hb, h]

/-- Helper: looking a key up after `removeItem` yields `none` for the removed
key and is unchanged for every other key. -/
theorem lookup_removeItem (k k' : String) (st : List (String × String)) :
    (removeItem k' st).lookup k = if k = k' then none else st.lookup k := by
  induction st with
  | nil => simp [removeItem]
  | cons kv tl ih =>
      obtain ⟨a, b⟩ := kv
      by_cases hk : a = k'
      · subst hk
        have h1 : removeItem a ((a, b) :: tl) = removeItem a tl := by
          simp [removeItem, List.filter_cons]
        rw [h1, ih, lookup_cons_pair]
        by_cases hke : k = a <;> simp [hke]
      · have h1 : removeItem k' ((a, b) :: tl) = (a, b) :: removeItem k' tl := by
          simp [removeItem, List.filter_cons, hk]
        rw [h1, lookup_cons_pair, ih, lookup_cons_pair]
        by_cases hke : k = a
        · subst hke; simp [hk]
        · simp [hke]

/-- Helper: a truthy value is not nullish. -/
theorem truthy_not_nullish (v : JSValue) (h : v.truthy = true) :
    v.isNullish = false := by
  cases v <;> simp_all [JSValue.truthy, JSValue.isNullish]

/-- Helper: `v ?? null` has the same truthiness as `v`. -/
theorem orNull_truthy (v : JSValue) : (orNull v).truthy = v.truthy := by
  cases v <;> simp [orNull, JSValue.isNullish, JSValue.truthy]

/-- Helper: `v?.k` agrees with plain field access in this model, since field
access on a non-object already yields `undefined`. -/
theorem optChain_eq_jsGetField (v : JSValue) (k : String) :
    optChain v k = jsGetField v k := by
  cases v <;> simp [optChain, jsGetField, JSValue.isNullish]

/-- Helper: a truthy field can only come from an object, which is truthy. -/
theorem jsGetField_truthy_imp (v : JSValue) (k : String)
    (h : (jsGetField v k).truthy = true) : v.truthy = true := by
  cases v <;> simp_all [jsGetField, JSValue.truthy]

/-- Helper: `checkAuth` on an ok response with a parsed body, in closed
form. -/
theorem checkAuth_ok_some (status : Nat) (hok : resOk status = true)
    (data : JSValue) (s : AuthState) :
    checkAuth (.response status (some data)) s =
      ((if data.truthy && (jsGetField data "user").truthy then
          { s with requests := s.requests ++ ["GET /api/me"],
                   currentUser := jsGetField data "user" }
        else { s with requests := s.requests ++ ["GET /api/me"] }),
       orNull (jsGetField data "user")) := by
  simp only [checkAuth, hok, if_true, optChain_eq_jsGetField]

/-- Helper: a key absent from the storage stays absent while removing a list
of keys. -/
theorem lookup_foldl_removeItem_none (ks : List String) (k : String)
    (st : List (String × String)) (h : st.lookup k = none) :
    (ks.foldl (fun st k' => removeItem k' st) st).lookup k = none := by
  induction ks generalizing st with
  | nil => simpa using h
  | cons a tl ih =>
      simp only [List.foldl]
      apply ih
      rw [lookup_removeItem]
      split <;> simp [h]

/-- Helper: removing a list of keys never touches a key outside the list. -/
theorem lookup_foldl_removeItem_not_mem (ks : List String) (k : String)
    (st : List (String × String)) (h : k ∉ ks) :
    (ks.foldl (fun st k' => removeItem k' st) st).lookup k = st.lookup k := by
  induction ks generalizing st with
  | nil => rfl
  | cons a tl ih =>
      simp only [List.mem_cons, not_or] at h
      simp only [List.foldl]
      rw [ih _ h.2, lookup_removeItem]
      simp [h.1]

/-- Helper: removing a list of keys erases every key in the list. -/
theorem lookup_foldl_removeItem_mem (ks : List String) (k : String)
    (st : List (String × String)) (h : k ∈ ks) :
    (ks.foldl (fun st k' => removeItem k' st) st).lookup k = none := by
  induction ks generalizing st with
  | nil => cases h
  | cons a tl ih =>
      simp only [List.foldl]
      rcases List.mem_cons.mp h with rfl | htl
      · apply lookup_foldl_removeItem_none
        rw [lookup_removeItem]
        simp
      · exact ih _ htl

/-- C1: when `/api/me` answers with status 401, `checkAuth` redirects the
browser to `/login`, never assigns `window.currentUser` (it keeps its prior
value), and returns `null`. -/
theorem checkAuth_401_redirects (j : Option JSValue) (s : AuthState) :
    (checkAuth (.response 401 j) s).1.locationHref = "/login" ∧
    (checkAuth (.response 401 j) s).1.currentUser = s.currentUser ∧
    (checkAuth (.response 401 j) s).2 = .null := by
  simp [checkAuth, resOk]

/-- C2: when `/api/me` answers with an ok status and a JSON body whose `user`
field is an object, `checkAuth` stores exactly that object in
`window.currentUser` and returns it. -/
theorem checkAuth_ok_user_stored (status : Nat)
    (fields ufields : List (String × JSValue)) (s : AuthState)
    (hok : resOk status = true)
    (hu : fields.lookup "user" = some (.obj ufields)) :
    (checkAuth (.response status (some (.obj fields))) s).1.currentUser =
      .obj ufields ∧
    (checkAuth (.response status (some (.obj fields))) s).2 = .obj ufields := by
  simp [checkAuth, hok, jsGetField, hu, JSValue.truthy, optChain,
    JSValue.isNullish, orNull]

/-- C2 witness: a concrete ok response whose body carries a user object. -/
theorem checkAuth_ok_user_stored_witness :
    resOk 200 = true ∧
    (List.lookup "user" [("user", JSValue.obj [("id", JSValue.num 1)])] =
      some (JSValue.obj [("id", JSValue.num 1)])) ∧
    (checkAuth (.response 200
        (some (.obj [("user", JSValue.obj [("id", JSValue.num 1)])])))
        sampleAuthState).1.currentUser = .obj [("id", JSValue.num 1)] ∧
    (checkAuth (.response 200
        (some (.obj [("user", JSValue.obj [("id", JSValue.num 1)])])))
        sampleAuthState).2 = .obj [("id", JSValue.num 1)] :=
  ⟨by decide, by simp [List.lookup],
    (checkAuth_ok_user_stored 200 _ _ sampleAuthState (by decide)
      (by simp [List.lookup])).1,
    (checkAuth_ok_user_stored 200 _ _ sampleAuthState (by decide)
      (by simp [List.lookup])).2⟩

/-- C3: on any non-401 failure of the session check — fetch rejection, a
non-ok status other than 401, or a JSON parse failure on an ok response —
`checkAuth` logs one error to the console and redirects to `/login`. -/
theorem checkAuth_failure_logs_and_redirects (f : FetchOutcome)
    (s : AuthState)
    (h : f = .networkError ∨
      (∃ status j, f = .response status j ∧ resOk status = false ∧
        status ≠ 401) ∨
      (∃ status, f = .response status none ∧ resOk status = true)) :
    (checkAuth f s).1.consoleErrors = s.consoleErrors + 1 ∧
    (checkAuth f s).1.locationHref = "/login" := by
  rcases h with rfl | ⟨status, j, rfl, hok, h401⟩ | ⟨status, rfl, hok⟩
  · simp [checkAuth]
  · simp [checkAuth, hok, h401]
  · simp [checkAuth, hok]

/-- C3 witness: a rejected fetch is logged and redirects. -/
theorem checkAuth_failure_logs_and_redirects_witness :
    (checkAuth .networkError sampleAuthState).1.consoleErrors =
      sampleAuthState.consoleErrors + 1 ∧
    (checkAuth .networkError sampleAuthState).1.locationHref = "/login" :=
  checkAuth_failure_logs_and_redirects .networkError sampleAuthState
    (Or.inl rfl)

/-- C4: every run of `doLogout` ends with the browser navigated to `/login`,
whatever the logout request and the storage clearing did. -/
theorem doLogout_always_redirects (fetchThrows : Bool)
    (storageThrowAt : Option Nat) (s : LogoutState) :
    (doLogout fetchThrows storageThrowAt s).locationHref = "/login" := rfl

/-- C5 counterexample: when the storage access throws before the first
`removeItem` call (`storageThrowAt = some 0`), `jobly_user` is NOT removed,
so logout does not always clear the four keys. -/
theorem doLogout_not_always_cleared :
    ((doLogout false (some 0)
        { storage := [("jobly_user", "u1")], locationHref := "/empresa" })
      |>.storage.lookup "jobly_user") = some "u1" := by
  simp [doLogout, logoutKeys, List.lookup]

/-- C5 amended: when clearing local storage does not throw, exactly the four
keys `jobly_user`, `authEmail`, `employerRegistration` and `ultimaVacanteId`
are removed; and in every run — throwing or not — no key outside those four
is touched. -/
theorem doLogout_clears_exactly_logoutKeys (fetchThrows : Bool)
    (storageThrowAt : Option Nat) (s : LogoutState) (k : String) :
    (k ∈ logoutKeys →
      ((doLogout fetchThrows none s).storage.lookup k) = none) ∧
    (k ∉ logoutKeys →
      ((doLogout fetchThrows storageThrowAt s).storage.lookup k) =
        s.storage.lookup k) := by
  constructor
  · intro hk
    simp only [doLogout, List.take_length]
    exact lookup_foldl_removeItem_mem _ _ _ (by simpa using hk)
  · intro hk
    simp only [doLogout]
    apply lookup_foldl_removeItem_not_mem
    intro hmem
    exact hk (List.take_subset _ _ hmem)

/-- C5 amended witness: in a concrete non-throwing run `jobly_user` is
removed, and in a concrete throwing run the unrelated key `theme` keeps its
value. -/
theorem doLogout_clears_exactly_logoutKeys_witness :
    ("jobly_user" ∈ logoutKeys ∧
      ((doLogout false none
          { storage := [("jobly_user", "u1"), ("theme", "dark")],
            locationHref := "/empresa" }).storage.lookup "jobly_user")
        = none) ∧
    ("theme" ∉ logoutKeys ∧
      ((doLogout false (some 0)
          { storage := [("jobly_user", "u1"), ("theme", "dark")],
            locationHref := "/empresa" }).storage.lookup "theme")
        = List.lookup "theme" [("jobly_user", "u1"), ("theme", "dark")]) :=
  ⟨⟨by decide,
    (doLogout_clears_exactly_logoutKeys false none _ "jobly_user").1
      (by decide)⟩,
   ⟨by decide,
    (doLogout_clears_exactly_logoutKeys false (some 0) _ "theme").2
      (by decide)⟩⟩

/-- C6: when `window.SKIP_AUTH_GUARD` is truthy before the DOM-ready handler
runs, the guard issues no network request at all. -/
theorem domReady_skip_no_request (skipAuthGuard : JSValue) (f : FetchOutcome)
    (s : AuthState) (h : skipAuthGuard.truthy = true) :
    (domReady skipAuthGuard f s).requests = s.requests := by
  simp [domReady, h]

/-- C6 witness: with the flag set to `true`, no request is issued. -/
theorem domReady_skip_no_request_witness :
    (JSValue.bool true).truthy = true ∧
    (domReady (.bool true) .networkError sampleAuthState).requests =
      sampleAuthState.requests :=
  ⟨rfl, domReady_skip_no_request (.bool true) .networkError sampleAuthState
    rfl⟩

/-- C7: when `/api/me` answers ok but the body is `null`, lacks a `user`
field, or carries `user: null`, `checkAuth` leaves `window.currentUser`
unassigned and returns `null`. -/
theorem checkAuth_ok_no_user (status : Nat) (data : JSValue) (s : AuthState)
    (hok : resOk status = true)
    (h : data = .null ∨ ∃ fields, data = .obj fields ∧
      (fields.lookup "user" = none ∨ fields.lookup "user" = some .null)) :
    (checkAuth (.response status (some data)) s).1.currentUser =
      s.currentUser ∧
    (checkAuth (.response status (some data)) s).2 = .null := by
  rcases h with rfl | ⟨fields, rfl, hu | hu⟩
  · simp [checkAuth, hok, jsGetField, JSValue.truthy, optChain,
      JSValue.isNullish, orNull]
  · simp [checkAuth, hok, jsGetField, hu, JSValue.truthy, optChain,
      JSValue.isNullish, orNull]
  · simp [checkAuth, hok, jsGetField, hu, JSValue.truthy, optChain,
      JSValue.isNullish, orNull]

/-- C7 witness: an ok response with body `{}`. -/
theorem checkAuth_ok_no_user_witness :
    resOk 200 = true ∧
    (checkAuth (.response 200 (some (.obj []))) sampleAuthState).1.currentUser
      = sampleAuthState.currentUser ∧
    (checkAuth (.response 200 (some (.obj []))) sampleAuthState).2 = .null :=
  ⟨by decide,
   (checkAuth_ok_no_user 200 (.obj []) sampleAuthState (by decide)
     (Or.inr ⟨[], rfl, Or.inl rfl⟩)).1,
   (checkAuth_ok_no_user 200 (.obj []) sampleAuthState (by decide)
     (Or.inr ⟨[], rfl, Or.inl rfl⟩)).2⟩

/-- C8 counterexample: `window.currentUser` is NOT overwritten on every guard
check — on a 401 run with a previously set user, it keeps the stale value
instead of the value obtained in that run. -/
theorem checkAuth_not_always_overwritten :
    ¬ ((checkAuth (.response 401 none)
        { currentUser := .obj [("id", JSValue.num 7)],
          locationHref := "/empresa", consoleErrors := 0,
          requests := [] }).1.currentUser =
      (checkAuth (.response 401 none)
        { currentUser := .obj [("id", JSValue.num 7)],
          locationHref := "/empresa", consoleErrors := 0,
          requests := [] }).2) := by
  simp [checkAuth, resOk]

/-- C8 amended: `window.currentUser` is overwritten by a guard check exactly
when the check obtains a truthy user value, and is then set to that value;
on every other run it retains its previous value. -/
theorem checkAuth_overwrite_iff_truthy_user (f : FetchOutcome)
    (s : AuthState) :
    ((checkAuth f s).2.truthy = true →
      (checkAuth f s).1.currentUser = (checkAuth f s).2) ∧
    ((checkAuth f s).2.truthy = false →
      (checkAuth f s).1.currentUser = s.currentUser) := by
  match f with
  | .networkError => simp [checkAuth, JSValue.truthy]
  | .response status jsonResult =>
      by_cases hok : resOk status = true
      · match jsonResult with
        | none => simp [checkAuth, hok, JSValue.truthy]
        | some data =>
            rw [checkAuth_ok_some status hok data s]
            by_cases hcond :
                (data.truthy && (jsGetField data "user").truthy) = true
            · have hu : (jsGetField data "user").truthy = true :=
                (Bool.and_eq_true _ _ |>.mp hcond).2
              have hd : data.truthy = true :=
                (Bool.and_eq_true _ _ |>.mp hcond).1
              have ho : orNull (jsGetField data "user") =
                  jsGetField data "user" := by
                simp [orNull, truthy_not_nullish _ hu]
              simp [hcond, ho, hu, hd]
            · have hcond' :
                  (data.truthy && (jsGetField data "user").truthy) = false :=
                by simpa using hcond
              have hu : (jsGetField data "user").truthy = false := by
                by_cases h : (jsGetField data "user").truthy = true
                · have hd := jsGetField_truthy_imp data "user" h
                  simp [hd, h] at hcond'
                · simpa using h
              have htr : (orNull (jsGetField data "user")).truthy = false := by
                rw [orNull_truthy]; exact hu
              simp [hcond', htr]
      · have hok' : resOk status = false := by simpa using hok
        by_cases h401 : status = 401
        · subst h401
          simp [checkAuth, resOk, JSValue.truthy]
        · simp [checkAuth, hok', h401, JSValue.truthy]

/-- C8 amended witness: a run that obtains a truthy user overwrites
`window.currentUser` with it, and a 401 run (value `null`) leaves it
unchanged. -/
theorem checkAuth_overwrite_iff_truthy_user_witness :
    ((checkAuth (.response 200
        (some (.obj [("user", JSValue.obj [])]))) sampleAuthState).2.truthy
      = true ∧
     (checkAuth (.response 200
        (some (.obj [("user", JSValue.obj [])]))) sampleAuthState).1.currentUser
      = (checkAuth (.response 200
        (some (.obj [("user", JSValue.obj [])]))) sampleAuthState).2) ∧
    ((checkAuth (.response 401 none) sampleAuthState).2.truthy = false ∧
     (checkAuth (.response 401 none) sampleAuthState).1.currentUser =
      sampleAuthState.currentUser) :=
  ⟨⟨by simp [checkAuth, resOk, jsGetField, optChain, orNull,
      JSValue.isNullish, JSValue.truthy, List.lookup],
    (checkAuth_overwrite_iff_truthy_user _ sampleAuthState).1
      (by simp [checkAuth, resOk, jsGetField, optChain, orNull,
        JSValue.isNullish, JSValue.truthy, List.lookup])⟩,
   ⟨by simp [checkAuth, resOk, JSValue.truthy],
    (checkAuth_overwrite_iff_truthy_user _ sampleAuthState).2
      (by simp [checkAuth, resOk, JSValue.truthy])⟩⟩

/-- C9: a click on a bookmark control flips the path's filled state (so two
consecutive clicks restore the original fill state), leaves the fill at
either `none` or the filled value `#141514`, and — because the handler stops
propagation — never triggers the enclosing job-card click handler (the
console log is unchanged). -/
theorem bookmark_click_toggles_and_stops (p : PathAttrs) (log : List String) :
    (clickOnBookmark p log).2 = log ∧
    isFilled (clickOnBookmark p log).1 = !(isFilled p) ∧
    isFilled (clickOnBookmark (clickOnBookmark p log).1 log).1 = isFilled p ∧
    ((clickOnBookmark p log).1.fill = some "none" ∨
      (clickOnBookmark p log).1.fill = some "#141514") := by
  by_cases h : isFilled p = true <;>
    simp_all [clickOnBookmark, bookmarkClickHandler, bookmarkToggle,
      stopPropagation, isFilled]

/-- C10: after any click the path attributes are in exactly one of the two
states (fill "none", stroke "#141514") or (fill "#141514", stroke "none"),
and each further click moves from either state to the other. -/
theorem bookmark_two_state_invariant (p : PathAttrs) :
    (bookmarkToggle p = bookmarkOutline ∨ bookmarkToggle p = bookmarkFilled) ∧
    bookmarkToggle bookmarkOutline = bookmarkFilled ∧
    bookmarkToggle bookmarkFilled = bookmarkOutline := by
  refine ⟨?_, by decide, by decide⟩
  by_cases h : isFilled p = true <;>
    simp_all [bookmarkToggle, bookmarkOutline, bookmarkFilled]

end Jobly
